import Mathlib

/-!
# Verification of the go-rally-rest-toolkit request-execution core

Shallow embedding of the resilient request-execution core of the
`go-rally-rest-toolkit` Go library:

* `errors.go` — the error normalizer (`parseRallyError`, `RallyAPIError.Error`,
  `RallyAPIError.Is`);
* `rallyclient.go` — the retry engine (`doWithRetry`, `isRetryableStatusCode`,
  `isRetryableError`) and the shared response-handling tail of the five CRUD
  operations (`QueryRequest`, `GetRequest`, `CreateRequest`, `UpdateRequest`,
  `DeleteRequest`).

Conventions of the embedding:

* Go `int` / `int64` values are modelled as `Int`; where 64-bit overflow can
  change behaviour (the backoff-delay computation, which multiplies
  `time.Duration` values) the arithmetic is wrapped explicitly with `wrap64`.
* Go byte slices holding response bodies are modelled as `RawBody`: the raw
  text together with its JSON parse when the bytes are valid JSON (the JSON
  grammar itself is not re-verified; `encoding/json`'s decoding of the parsed
  value into the concrete Go struct types is modelled field by field).
* The HTTP transport (`ClientDoer.Do`) is modelled as a script indexed by the
  invocation count, returning either a response or a Go error, exactly the
  seam the library's own test fakes use.
* The request context is modelled by an oracle `ctxDone : Nat → Bool` saying
  whether the context's `Done` channel fires during the backoff wait that
  follows attempt `k`, plus the value `ctxErr` that `ctx.Err()` reports then.
* `rand.Int63n(n)` panics for `n ≤ 0`; this is modelled by `int63n` returning
  `none` (and the retry loop returning `DoResult.crash`) in that case.
-/

namespace RallyToolkit

/-! ## JSON values and response bodies -/

/-- A JSON value, as produced by parsing a response body. Numbers are modelled
as integers; no claim in scope depends on fractional numeric payloads. -/
inductive Json where
  | null
  | bool (b : Bool)
  | num (n : Int)
  | str (s : String)
  | arr (elems : List Json)
  | obj (fields : List (String × Json))

/-- A response body: the raw bytes as text, together with the JSON value the
bytes parse to when they are valid JSON (`none` when `json.Unmarshal` on the
bytes reports a syntax error). -/
structure RawBody where
  text : String
  parsed : Option Json
deriving Inhabited

/-! ## errors.go: data types -/

/-- `operationResult` (errors.go): the common structure for Rally API
operation results, with `Errors` and `Warnings` string lists. Go nil slices
are modelled as `[]`. -/
structure operationResult where
  Errors : List String
  Warnings : List String
deriving DecidableEq, Repr

/-- `rallyErrorResponse` (errors.go): the envelope with the three known result
keys, each an optional (`*operationResult`, nillable) field. -/
structure rallyErrorResponse where
  OperationResult : Option operationResult
  CreateResult : Option operationResult
  QueryResult : Option operationResult
deriving DecidableEq, Repr

/-- `RallyAPIError` (errors.go): the structured service error. -/
structure RallyAPIError where
  StatusCode : Int
  Message : String
  Errors : List String
  Warnings : List String
deriving DecidableEq, Repr

/-! ## encoding/json unmarshalling into `rallyErrorResponse`

`json.Unmarshal` matches object keys to struct fields preferring an exact
match but also accepting a case-insensitive match; when a key occurs several
times every occurrence is decoded (any type error makes the whole unmarshal
fail) and the last occurrence wins. Unknown keys are ignored; a JSON `null`
leaves the target value untouched. -/

/-- Key-to-field matching: exact, or case-insensitive (ASCII fold; the claims
in scope use ASCII keys only). -/
def keyMatches (key name : String) : Bool :=
  key == name || (key.data.map Char.toLower) == (name.data.map Char.toLower)

/-- All values bound to (a case-insensitive match of) `name` in an object, in
source order. -/
def fieldOccurrences (fields : List (String × Json)) (name : String) : List Json :=
  (fields.filter (fun kv => keyMatches kv.1 name)).map (fun kv => kv.2)

/-- Unmarshal a JSON value into a Go `string`: a JSON string decodes to
itself, `null` leaves the zero value `""`, anything else is a type error. -/
def decodeGoString : Json → Option String
  | Json.str s => some s
  | Json.null => some ""
  | _ => none

/-- Unmarshal a JSON value into a Go `[]string`: `null` leaves the nil slice,
an array decodes element-wise, anything else is a type error. -/
def decodeStringSlice : Json → Option (List String)
  | Json.null => some []
  | Json.arr es => es.mapM decodeGoString
  | _ => none

/-- Decode one struct field of slice type from an object: absent keys leave
the nil slice; otherwise every occurrence must decode and the last wins. -/
def decodeSliceField (fields : List (String × Json)) (name : String) :
    Option (List String) :=
  match (fieldOccurrences fields name).mapM decodeStringSlice with
  | none => none
  | some vs => some (vs.getLastD [])

/-- Unmarshal a JSON value into an `operationResult` struct value: must be an
object; its `Errors` / `Warnings` fields decode as `[]string`. -/
def decodeOperationResult : Json → Option operationResult
  | Json.obj fields =>
    match decodeSliceField fields "Errors", decodeSliceField fields "Warnings" with
    | some errs, some warns => some ⟨errs, warns⟩
    | _, _ => none
  | _ => none

/-- Unmarshal a JSON value into a `*operationResult` pointer field: `null`
yields the nil pointer, an object allocates and decodes, anything else is a
type error. -/
def decodePtrOperationResult : Json → Option (Option operationResult)
  | Json.null => some none
  | j =>
    match decodeOperationResult j with
    | some r => some (some r)
    | none => none

/-- Decode one `*operationResult` struct field from an object: absent keys
leave the nil pointer; otherwise every occurrence must decode and the last
wins. -/
def decodePtrField (fields : List (String × Json)) (name : String) :
    Option (Option operationResult) :=
  match (fieldOccurrences fields name).mapM decodePtrOperationResult with
  | none => none
  | some vs => some (vs.getLastD none)

/-- `json.Unmarshal(body, &resp)` for `resp : rallyErrorResponse`: the
top-level value must be an object (or `null`, which leaves the zero struct);
each of the three tagged fields is decoded as a nillable pointer. `none`
models `json.Unmarshal` returning a non-nil error. -/
def unmarshalRallyErrorResponse : Json → Option rallyErrorResponse
  | Json.null => some ⟨none, none, none⟩
  | Json.obj fields =>
    match decodePtrField fields "OperationResult",
          decodePtrField fields "CreateResult",
          decodePtrField fields "QueryResult" with
    | some op, some cr, some qr => some ⟨op, cr, qr⟩
    | _, _, _ => none
  | _ => none

/-! ## errors.go: behaviour -/

/-- Lines 99–106 of errors.go: which result envelope is consulted, in fixed
priority order `OperationResult`, then `CreateResult`, then `QueryResult`. -/
def selectResult (resp : rallyErrorResponse) : Option operationResult :=
  if resp.OperationResult.isSome then resp.OperationResult
  else if resp.CreateResult.isSome then resp.CreateResult
  else resp.QueryResult

/-- `parseRallyError` (errors.go): build a `RallyAPIError` from a status code
and a body. Default message is the raw body text; if the body unmarshals as an
envelope with a result present, its lists are copied verbatim and, when the
error list is non-empty, the message becomes the `"; "`-join of the errors. -/
def parseRallyError (statusCode : Int) (body : RawBody) : RallyAPIError :=
  let apiErr : RallyAPIError := ⟨statusCode, body.text, [], []⟩
  match body.parsed.bind unmarshalRallyErrorResponse with
  | none => apiErr
  | some resp =>
    match selectResult resp with
    | none => apiErr
    | some result =>
      { apiErr with
        Errors := result.Errors
        Warnings := result.Warnings
        Message :=
          if 0 < result.Errors.length then String.intercalate "; " result.Errors
          else apiErr.Message }

/-- `RallyAPIError.Error` (errors.go): the rendered error message. -/
def RallyAPIError.Error (e : RallyAPIError) : String :=
  if 0 < e.Errors.length then
    "Rally API error (status " ++ toString e.StatusCode ++ "): "
      ++ String.intercalate "; " e.Errors
  else if e.Message ≠ "" then
    "Rally API error (status " ++ toString e.StatusCode ++ "): " ++ e.Message
  else
    "Rally API error (status " ++ toString e.StatusCode ++ ")"

/-- A Go `error` value as seen by `errors.Is` target matching: either a
`*RallyAPIError` or some other error value. -/
inductive ErrValue where
  | rally (e : RallyAPIError)
  | nonRally (text : String)
deriving DecidableEq

/-- `RallyAPIError.Is` (errors.go): target must be a `*RallyAPIError`; a
target status code of 0 is a wildcard, otherwise status codes must agree. -/
def RallyAPIError.Is (e : RallyAPIError) (target : ErrValue) : Bool :=
  match target with
  | ErrValue.nonRally _ => false
  | ErrValue.rally t =>
    if t.StatusCode = 0 then true
    else e.StatusCode == t.StatusCode

/-! ## rallyclient.go: configuration and defaults -/

/-- `Config` (config file): only the two fields the retry engine reads. -/
structure Config where
  MaxRetries : Int
  RetryDelay : Int
deriving DecidableEq, Repr

/-- Default maximum retry count. -/
def DefaultMaxRetries : Int := 3

/-- Default base retry delay in milliseconds. -/
def DefaultRetryDelay : Int := 1000

/-- Lines 91–96 of rallyclient.go: the effective max-retries value —
`DefaultMaxRetries` unless a config was set with `SetConfig`. -/
def effMaxRetries : Option Config → Int
  | none => DefaultMaxRetries
  | some c => c.MaxRetries

/-- Lines 91–96 of rallyclient.go: the effective base retry delay (ms). -/
def effRetryDelay : Option Config → Int
  | none => DefaultRetryDelay
  | some c => c.RetryDelay

/-! ## rallyclient.go: Go error values and retryability -/

/-- A Go `error` value as the transport / context can produce it:
`context.DeadlineExceeded` and `context.Canceled` are distinguished values
(`doWithRetry` compares against the former with `==`); any other error is
just its text. -/
inductive GoError where
  | deadlineExceeded
  | canceled
  | mk (text : String)
deriving DecidableEq, Repr

/-- `err.Error()` for the modelled Go error values. -/
def GoError.text : GoError → String
  | GoError.deadlineExceeded => "context deadline exceeded"
  | GoError.canceled => "context canceled"
  | GoError.mk t => t

/-- `strings.Contains s sub`. -/
def strContains (s sub : String) : Bool :=
  s.toList.tails.any (fun t => sub.toList.isPrefixOf t)

/-- `isRetryableStatusCode` (rallyclient.go lines 66–68): 5xx only. -/
def isRetryableStatusCode (statusCode : Int) : Bool :=
  500 ≤ statusCode && statusCode < 600

/-- `isRetryableError` (rallyclient.go lines 72–86): nil is not retryable;
`context.DeadlineExceeded` is; otherwise the error text is scanned for the
known transient patterns. -/
def isRetryableError : Option GoError → Bool
  | none => false
  | some GoError.deadlineExceeded => true
  | some e =>
    strContains e.text "connection refused" || strContains e.text "connection reset"
      || strContains e.text "timeout" || strContains e.text "temporary failure"

/-! ## rallyclient.go: the backoff-delay computation (lines 126–131)

`delay := time.Duration(retryDelay) * time.Millisecond * (1 << attempt)` is
64-bit signed arithmetic over nanoseconds; `rand.Int63n(int64(delay / 2))`
panics when its argument is not positive (in particular when `retryDelay`
is 0, and when the 64-bit product wraps to a non-positive value). -/

/-- Reduce an unbounded integer to the 64-bit signed value Go arithmetic
produces (two's-complement wrap-around). -/
def wrap64 (x : Int) : Int := (x + 2 ^ 63) % 2 ^ 64 - 2 ^ 63

/-- Go `1 << attempt` at type `int64` (`time.Duration`): shifting beyond the
word keeps discarding high bits, so the value is `2 ^ attempt` wrapped. -/
def oneShl64 (attempt : Nat) : Int := wrap64 (2 ^ attempt)

/-- Go division truncates toward zero. -/
def goQuot (a b : Int) : Int := Int.tdiv a b

/-- The computed backoff delay in nanoseconds, before jitter:
`time.Duration(retryDelay) * time.Millisecond * (1 << attempt)` with 64-bit
wrap-around at each multiplication. -/
def goDelay (retryDelay : Int) (attempt : Nat) : Int :=
  wrap64 (wrap64 (retryDelay * 1000000) * oneShl64 attempt)

/-- `rand.Int63n bound`, scripted by a draw `r`: panics (`none`) unless
`0 < bound`, else yields a value in `[0, bound)` (here `r % bound`, so every
value in the interval is attainable by some draw). -/
def int63n (r : Nat) (bound : Int) : Option Int :=
  if bound ≤ 0 then none else some ((r : Int) % bound)

/-- Lines 126–131 of rallyclient.go as one function: the slept duration —
base delay plus jitter — or `none` when `rand.Int63n` panics. -/
def backoffDelay (retryDelay : Int) (attempt : Nat) (r : Nat) : Option Int :=
  match int63n r (goQuot (goDelay retryDelay attempt) 2) with
  | none => none
  | some jitter => some (goDelay retryDelay attempt + jitter)

/-! ## rallyclient.go: the retry loop (doWithRetry, lines 90–146) -/

/-- An HTTP response as the retry engine sees it: status code and body. -/
structure Response where
  StatusCode : Int
  body : RawBody

/-- The error values `doWithRetry` can return. `ctxCancelled n w` is
`fmt.Errorf("context cancelled after %d retries: %w", attempt, ctx.Err())`;
`failedAfter n w` is `fmt.Errorf("request failed after %d retries: %w",
maxRetries, lastErr)`; `serverStatus c` is the recorded
`fmt.Errorf("server returned status %d", c)`; `failedAfterNone` is the
degenerate exhaustion wrap of a nil `lastErr` (reachable only when
`maxRetries < 0`). -/
inductive RErr where
  | goErr (e : GoError)
  | serverStatus (code : Int)
  | ctxCancelled (retries : Nat) (wrapped : RErr)
  | failedAfter (maxRetries : Int) (wrapped : RErr)
  | failedAfterNone (maxRetries : Int)
deriving DecidableEq, Repr

/-- Outcome of `doWithRetry`: a response, an error, or a runtime panic of the
jitter computation (`rand.Int63n` with a non-positive bound). -/
inductive DoResult where
  | ok (resp : Response)
  | err (e : RErr)
  | crash

/-- Wrap an optional `lastErr` the way line 145 of rallyclient.go does. -/
def exhaustedErr (maxRetries : Int) : Option RErr → RErr
  | none => RErr.failedAfterNone maxRetries
  | some e => RErr.failedAfter maxRetries e

/-- The `for attempt := 0; attempt <= maxRetries; attempt++` loop of
`doWithRetry`, with `fuel` the number of loop iterations still permitted by
the loop condition (`fuel = 0` exactly when `attempt > maxRetries`, i.e. the
loop exhausts and line 145 runs). Per iteration: one transport call
(`client attempt`); an early return unless the outcome is retryable and
attempts remain; otherwise the backoff computation (which can panic) and the
cancellation-aware wait (lines 133–142 — note both arms of the
`lastResp != nil` test return the same wrapped context error). The second
component of the result is the number of transport invocations made. -/
def doWithRetryLoop (client : Nat → Except GoError Response) (ctxDone : Nat → Bool)
    (ctxErr : GoError) (rand : Nat → Nat) (maxRetries retryDelay : Int) :
    Nat → Nat → Option RErr → Bool → DoResult × Nat
  | 0, attempt, lastErr, _lastResp =>
    (DoResult.err (exhaustedErr maxRetries lastErr), attempt)
  | fuel + 1, attempt, _lastErr, lastResp =>
    match client attempt with
    | Except.error e =>
      if isRetryableError (some e) = false ∨ (attempt : Int) = maxRetries then
        (DoResult.err (RErr.goErr e), attempt + 1)
      else
        match int63n (rand attempt) (goQuot (goDelay retryDelay attempt) 2) with
        | none => (DoResult.crash, attempt + 1)
        | some _jitter =>
          if ctxDone attempt = true then
            if lastResp then
              (DoResult.err (RErr.ctxCancelled attempt (RErr.goErr ctxErr)), attempt + 1)
            else
              (DoResult.err (RErr.ctxCancelled attempt (RErr.goErr ctxErr)), attempt + 1)
          else
            doWithRetryLoop client ctxDone ctxErr rand maxRetries retryDelay fuel
              (attempt + 1) (some (RErr.goErr e)) lastResp
    | Except.ok resp =>
      if isRetryableStatusCode resp.StatusCode = false ∨ (attempt : Int) = maxRetries then
        (DoResult.ok resp, attempt + 1)
      else
        match int63n (rand attempt) (goQuot (goDelay retryDelay attempt) 2) with
        | none => (DoResult.crash, attempt + 1)
        | some _jitter =>
          if ctxDone attempt = true then
            if lastResp then
              (DoResult.err (RErr.ctxCancelled attempt (RErr.goErr ctxErr)), attempt + 1)
            else
              (DoResult.err (RErr.ctxCancelled attempt (RErr.goErr ctxErr)), attempt + 1)
          else
            doWithRetryLoop client ctxDone ctxErr rand maxRetries retryDelay fuel
              (attempt + 1) (some (RErr.serverStatus resp.StatusCode)) true

/-- `doWithRetry` (rallyclient.go lines 90–146): resolve the effective
configuration, then run the loop from attempt 0 with nil `lastErr` and nil
`lastResp`. The loop permits `maxRetries + 1` iterations (none when the
configured value is negative). -/
def doWithRetry (client : Nat → Except GoError Response) (ctxDone : Nat → Bool)
    (ctxErr : GoError) (rand : Nat → Nat) (cfg : Option Config) : DoResult × Nat :=
  doWithRetryLoop client ctxDone ctxErr rand (effMaxRetries cfg) (effRetryDelay cfg)
    ((effMaxRetries cfg + 1).toNat) 0 none false

/-! ## rallyclient.go: the shared operation tail (lines 149–353)

All five CRUD operations (`QueryRequest`, `GetRequest`, `CreateRequest`,
`UpdateRequest`, `DeleteRequest`) share, verbatim, the same handling of the
`doWithRetry` outcome: wrap an engine error as a generic execution failure;
on a response outside [200,300) return `parseRallyError`; otherwise
`json.Unmarshal` the body into the caller-supplied output value. URL and
header assembly differ per operation but do not affect these observables, so
the five operations are modelled as this shared tail, with `decode` the
predicate "the body unmarshals into the caller's output shape". -/

/-- Observable outcome of one CRUD operation. -/
inductive OpResult where
  | success
  | apiError (e : RallyAPIError)
  | execFailure (e : RErr)
  | decodeFailure
  | crashed
deriving DecidableEq, Repr

/-- The shared response-handling tail of the five CRUD operations, paired
with the number of transport invocations made. -/
def runOperation (decode : RawBody → Bool) (client : Nat → Except GoError Response)
    (ctxDone : Nat → Bool) (ctxErr : GoError) (rand : Nat → Nat)
    (cfg : Option Config) : OpResult × Nat :=
  match doWithRetry client ctxDone ctxErr rand cfg with
  | (DoResult.crash, n) => (OpResult.crashed, n)
  | (DoResult.err e, n) => (OpResult.execFailure e, n)
  | (DoResult.ok resp, n) =>
    if resp.StatusCode < 200 ∨ 300 ≤ resp.StatusCode then
      (OpResult.apiError (parseRallyError resp.StatusCode resp.body), n)
    else if decode resp.body then (OpResult.success, n)
    else (OpResult.decodeFailure, n)

/-- `QueryRequest` (rallyclient.go lines 149–190), restricted to the
observables in scope. -/
def QueryRequest := runOperation

/-- `GetRequest` (rallyclient.go lines 193–231). -/
def GetRequest := runOperation

/-- `CreateRequest` (rallyclient.go lines 233–272). -/
def CreateRequest := runOperation

/-- `UpdateRequest` (rallyclient.go lines 274–313). -/
def UpdateRequest := runOperation

/-- `DeleteRequest` (rallyclient.go lines 315–353). -/
def DeleteRequest := runOperation

/-- The common shape of the five CRUD operations, used to quantify a claim
over "any of Query/Get/Create/Update/Delete". -/
def CrudOp : Type :=
  (RawBody → Bool) → (Nat → Except GoError Response) → (Nat → Bool) → GoError
    → (Nat → Nat) → Option Config → OpResult × Nat

/-! ## Helper lemmas -/

/-- `parseRallyError` always carries the given status code. -/
theorem parseRallyError_statusCode (s : Int) (body : RawBody) :
    (parseRallyError s body).StatusCode = s := by
  unfold parseRallyError
  cases hb : body.parsed.bind unmarshalRallyErrorResponse with
  | none => rfl
  | some resp =>
    cases hr : selectResult resp with
    | none => simp only [hr]
    | some result => simp only [hr]

/-- 64-bit wrap-around is the identity on the representable range. -/
theorem wrap64_eq_of_lt {x : Int} (h0 : 0 ≤ x) (h1 : x < 2 ^ 63) : wrap64 x = x := by
  unfold wrap64
  have hlt : x + 2 ^ 63 < 2 ^ 64 := by norm_num at h1 ⊢; linarith
  rw [Int.emod_eq_of_lt (by linarith) hlt]
  ring

/-- A status in [500,600) is retryable. -/
theorem isRetryableStatusCode_eq_true {c : Int} (h1 : 500 ≤ c) (h2 : c < 600) :
    isRetryableStatusCode c = true := by
  simp only [isRetryableStatusCode, Bool.and_eq_true, decide_eq_true_eq]
  exact ⟨h1, h2⟩

/-- A status outside [500,600) is not retryable. -/
theorem isRetryableStatusCode_eq_false {c : Int} (h : c < 500 ∨ 600 ≤ c) :
    isRetryableStatusCode c = false := by
  simp only [isRetryableStatusCode]
  rcases h with h | h
  · rw [decide_eq_false (not_le.mpr h)]
    simp
  · rw [decide_eq_false (not_lt.mpr h)]
    simp

/-- Go's truncating division of an integer that is at least 2 by 2 is
positive. -/
theorem goQuot_two_pos {x : Int} (h : 2 ≤ x) : 0 < goQuot x 2 := by
  lift x to ℕ using (by linarith)
  have h2 : 2 ≤ x := by exact_mod_cast h
  unfold goQuot
  have hq : Int.tdiv (x : Int) 2 = ((x / 2 : ℕ) : Int) := rfl
  rw [hq]
  exact_mod_cast Nat.div_pos h2 (by norm_num)

/-! ## Claim C6 -/

/-- Claim C6: for every status code and every body that parses as a known
envelope whose (selected) result has a non-empty `Errors` list,
`parseRallyError` returns an error whose `Errors` and `Warnings` lists equal
the envelope's lists verbatim, whose message is the errors joined with
`"; "`, and whose rendered message is
`"Rally API error (status <code>): <joined errors>"`. -/
theorem c6_envelope_errors_joined (s : Int) (body : RawBody)
    (env : rallyErrorResponse) (r : operationResult)
    (hparse : body.parsed.bind unmarshalRallyErrorResponse = some env)
    (hsel : selectResult env = some r)
    (hne : r.Errors ≠ []) :
    parseRallyError s body
        = ⟨s, String.intercalate "; " r.Errors, r.Errors, r.Warnings⟩
      ∧ (parseRallyError s body).Error
        = "Rally API error (status " ++ toString s ++ "): "
            ++ String.intercalate "; " r.Errors := by
  have hlen : 0 < r.Errors.length := List.length_pos.mpr hne
  have h1 : parseRallyError s body
      = ⟨s, String.intercalate "; " r.Errors, r.Errors, r.Warnings⟩ := by
    unfold parseRallyError
    simp only [hparse, hsel, if_pos hlen]
  refine ⟨h1, ?_⟩
  rw [h1]
  unfold RallyAPIError.Error
  simp only [if_pos hlen]

/-- Witness for C6 at the spec's concrete example: body
`{"OperationResult": {"Errors": ["Invalid field","Missing required field"],
"Warnings": []}}` with status 400. -/
theorem c6_witness :
    ((RawBody.mk
        "\x7b\"OperationResult\": \x7b\"Errors\": [\"Invalid field\",\"Missing required field\"], \"Warnings\": []\x7d\x7d"
        (some (Json.obj [("OperationResult", Json.obj
          [("Errors", Json.arr [Json.str "Invalid field", Json.str "Missing required field"]),
           ("Warnings", Json.arr [])])]))).parsed.bind unmarshalRallyErrorResponse
      = some ⟨some ⟨["Invalid field", "Missing required field"], []⟩, none, none⟩)
    ∧ (parseRallyError 400 (RawBody.mk
        "\x7b\"OperationResult\": \x7b\"Errors\": [\"Invalid field\",\"Missing required field\"], \"Warnings\": []\x7d\x7d"
        (some (Json.obj [("OperationResult", Json.obj
          [("Errors", Json.arr [Json.str "Invalid field", Json.str "Missing required field"]),
           ("Warnings", Json.arr [])])])))).Error
      = "Rally API error (status 400): Invalid field; Missing required field"
    ∧ (parseRallyError 400 (RawBody.mk
        "\x7b\"OperationResult\": \x7b\"Errors\": [\"Invalid field\",\"Missing required field\"], \"Warnings\": []\x7d\x7d"
        (some (Json.obj [("OperationResult", Json.obj
          [("Errors", Json.arr [Json.str "Invalid field", Json.str "Missing required field"]),
           ("Warnings", Json.arr [])])])))).Errors.length = 2 := by
  have H := c6_envelope_errors_joined 400
    (RawBody.mk
      "\x7b\"OperationResult\": \x7b\"Errors\": [\"Invalid field\",\"Missing required field\"], \"Warnings\": []\x7d\x7d"
      (some (Json.obj [("OperationResult", Json.obj
        [("Errors", Json.arr [Json.str "Invalid field", Json.str "Missing required field"]),
         ("Warnings", Json.arr [])])])))
    ⟨some ⟨["Invalid field", "Missing required field"], []⟩, none, none⟩
    ⟨["Invalid field", "Missing required field"], []⟩
    rfl rfl (by decide)
  exact ⟨rfl, H.2.trans (by rfl), by rw [H.1]; rfl⟩

/-! ## Claim C7 -/

/-- Claim C7: for every status code and every body that does not unmarshal as
the envelope shape, or unmarshals with no known envelope key present (no
result selected), `parseRallyError` returns the (non-null) error carrying
that status code, an empty error list, an empty warning list, and the raw
body text as the message. -/
theorem c7_graceful_degradation (s : Int) (body : RawBody)
    (h : body.parsed.bind unmarshalRallyErrorResponse = none
      ∨ ∃ env, body.parsed.bind unmarshalRallyErrorResponse = some env
          ∧ selectResult env = none) :
    parseRallyError s body = ⟨s, body.text, [], []⟩ := by
  unfold parseRallyError
  rcases h with h | ⟨env, h1, h2⟩
  · simp only [h]
  · simp only [h1, h2]

/-- Witness for C7 at the spec's concrete example: status 404 with a non-JSON
body. -/
theorem c7_witness :
    ((RawBody.mk "<html>502 bad gateway page</html>" none).parsed.bind
        unmarshalRallyErrorResponse = none)
    ∧ parseRallyError 404 (RawBody.mk "<html>502 bad gateway page</html>" none)
      = ⟨404, "<html>502 bad gateway page</html>", [], []⟩ :=
  ⟨rfl, c7_graceful_degradation 404
    (RawBody.mk "<html>502 bad gateway page</html>" none) (Or.inl rfl)⟩

/-! ## Claim C8 -/

/-- Claim C8: a structured service error matches a reference error value iff
the reference is itself a structured service error and either the reference's
status code is 0 (wildcard) or the status codes agree; message, error-list and
warning-list content never affect matching. In particular an error with
status 400 matches references with status 0 and 400 but not 500. -/
theorem c8_error_matching_characterization :
    (∀ (e : RallyAPIError) (target : ErrValue),
      RallyAPIError.Is e target = true
        ↔ ∃ t, target = ErrValue.rally t
            ∧ (t.StatusCode = 0 ∨ e.StatusCode = t.StatusCode))
    ∧ RallyAPIError.Is ⟨400, "bad request", ["e1"], ["w1"]⟩
        (ErrValue.rally ⟨0, "", [], []⟩) = true
    ∧ RallyAPIError.Is ⟨400, "bad request", ["e1"], ["w1"]⟩
        (ErrValue.rally ⟨400, "different message", ["zz"], []⟩) = true
    ∧ RallyAPIError.Is ⟨400, "bad request", ["e1"], ["w1"]⟩
        (ErrValue.rally ⟨500, "", [], []⟩) = false := by
  refine ⟨?_, by decide, by decide, by decide⟩
  intro e target
  cases target with
  | nonRally t => simp [RallyAPIError.Is]
  | rally t =>
    by_cases h : t.StatusCode = 0
    · simp [RallyAPIError.Is, h]
    · simp only [RallyAPIError.Is, if_neg h, beq_iff_eq, ErrValue.rally.injEq]
      constructor
      · intro he
        exact ⟨t, rfl, Or.inr he⟩
      · rintro ⟨t', rfl, h' | h'⟩
        · exact absurd h' h
        · exact h'

/-! ## Claim C10 -/

/-- Claim C10: when the unmarshalled envelope has several of the known result
keys present and non-null, `parseRallyError` selects the `Errors`/`Warnings`
lists by fixed priority: `OperationResult` first, then `CreateResult`, then
`QueryResult`. -/
theorem c10_envelope_priority (s : Int) (body : RawBody)
    (env : rallyErrorResponse) (r : operationResult)
    (hparse : body.parsed.bind unmarshalRallyErrorResponse = some env) :
    (env.OperationResult = some r →
      (parseRallyError s body).Errors = r.Errors
        ∧ (parseRallyError s body).Warnings = r.Warnings)
    ∧ (env.OperationResult = none → env.CreateResult = some r →
      (parseRallyError s body).Errors = r.Errors
        ∧ (parseRallyError s body).Warnings = r.Warnings)
    ∧ (env.OperationResult = none → env.CreateResult = none →
        env.QueryResult = some r →
      (parseRallyError s body).Errors = r.Errors
        ∧ (parseRallyError s body).Warnings = r.Warnings) := by
  refine ⟨fun hop => ?_, fun hop hcr => ?_, fun hop hcr hqr => ?_⟩
  · have hsel : selectResult env = some r := by simp [selectResult, hop]
    unfold parseRallyError
    simp [hparse, hsel]
  · have hsel : selectResult env = some r := by simp [selectResult, hop, hcr]
    unfold parseRallyError
    simp [hparse, hsel]
  · have hsel : selectResult env = some r := by simp [selectResult, hop, hcr, hqr]
    unfold parseRallyError
    simp [hparse, hsel]

/-- Witness for C10: three concrete bodies — all three keys present (the
`OperationResult` lists win), `CreateResult` and `QueryResult` present (the
`CreateResult` lists win), and `QueryResult` alone (it is used). -/
theorem c10_witness :
    ((RawBody.mk "b1" (some (Json.obj
        [("OperationResult", Json.obj [("Errors", Json.arr [Json.str "op"]), ("Warnings", Json.arr [])]),
         ("CreateResult", Json.obj [("Errors", Json.arr [Json.str "cr"]), ("Warnings", Json.arr [])]),
         ("QueryResult", Json.obj [("Errors", Json.arr [Json.str "qr"]), ("Warnings", Json.arr [])])]))).parsed.bind
        unmarshalRallyErrorResponse
      = some ⟨some ⟨["op"], []⟩, some ⟨["cr"], []⟩, some ⟨["qr"], []⟩⟩)
    ∧ (parseRallyError 409 (RawBody.mk "b1" (some (Json.obj
        [("OperationResult", Json.obj [("Errors", Json.arr [Json.str "op"]), ("Warnings", Json.arr [])]),
         ("CreateResult", Json.obj [("Errors", Json.arr [Json.str "cr"]), ("Warnings", Json.arr [])]),
         ("QueryResult", Json.obj [("Errors", Json.arr [Json.str "qr"]), ("Warnings", Json.arr [])])])))).Errors
      = ["op"]
    ∧ (parseRallyError 409 (RawBody.mk "b2" (some (Json.obj
        [("CreateResult", Json.obj [("Errors", Json.arr [Json.str "cr"]), ("Warnings", Json.arr [])]),
         ("QueryResult", Json.obj [("Errors", Json.arr [Json.str "qr"]), ("Warnings", Json.arr [])])])))).Errors
      = ["cr"]
    ∧ (parseRallyError 409 (RawBody.mk "b3" (some (Json.obj
        [("QueryResult", Json.obj [("Errors", Json.arr [Json.str "qr"]), ("Warnings", Json.arr [])])])))).Errors
      = ["qr"] := by
  refine ⟨rfl, ?_, ?_, ?_⟩
  · exact ((c10_envelope_priority 409 (RawBody.mk "b1" (some (Json.obj
        [("OperationResult", Json.obj [("Errors", Json.arr [Json.str "op"]), ("Warnings", Json.arr [])]),
         ("CreateResult", Json.obj [("Errors", Json.arr [Json.str "cr"]), ("Warnings", Json.arr [])]),
         ("QueryResult", Json.obj [("Errors", Json.arr [Json.str "qr"]), ("Warnings", Json.arr [])])])))
      ⟨some ⟨["op"], []⟩, some ⟨["cr"], []⟩, some ⟨["qr"], []⟩⟩
      ⟨["op"], []⟩ rfl).1 rfl).1
  · exact ((c10_envelope_priority 409 (RawBody.mk "b2" (some (Json.obj
        [("CreateResult", Json.obj [("Errors", Json.arr [Json.str "cr"]), ("Warnings", Json.arr [])]),
         ("QueryResult", Json.obj [("Errors", Json.arr [Json.str "qr"]), ("Warnings", Json.arr [])])])))
      ⟨none, some ⟨["cr"], []⟩, some ⟨["qr"], []⟩⟩
      ⟨["cr"], []⟩ rfl).2.1 rfl rfl).1
  · exact ((c10_envelope_priority 409 (RawBody.mk "b3" (some (Json.obj
        [("QueryResult", Json.obj [("Errors", Json.arr [Json.str "qr"]), ("Warnings", Json.arr [])])])))
      ⟨none, none, some ⟨["qr"], []⟩⟩
      ⟨["qr"], []⟩ rfl).2.2 rfl rfl rfl).1

/-! ## Claim C9 -/

/-- Counterexample to C9 as stated: with `retryDelayMs = 0` (a value the
claim explicitly includes) the backoff computation is not well defined — the
base delay is 0, so `rand.Int63n(int64(delay / 2))` is called with bound 0
and panics. Concretely, `backoffDelay 0 0 0` panics, and a client configured
with `MaxRetries = 3, RetryDelay = 0` whose transport returns a retryable
5xx response panics at the first backoff wait. -/
theorem c9_counterexample :
    backoffDelay 0 0 0 = none
    ∧ doWithRetry (fun _ => Except.ok ⟨500, ⟨"oops", none⟩⟩) (fun _ => false)
        GoError.canceled (fun _ => 0) (some ⟨3, 0⟩)
      = (DoResult.crash, 1) :=
  ⟨rfl, rfl⟩

/-- Claim C9, amended: for every retry configuration with positive
`retryDelayMs` and every attempt index `k` at which the 64-bit product
`retryDelayMs × 10^6 × 2^k` (the delay in nanoseconds) does not overflow,
the backoff computation is well defined and yields a delay equal to
`retryDelayMs × 2^k` milliseconds plus a jitter in `[0, delay/2)`, every
value of which is attainable by some random draw; with `retryDelayMs = 0`
the jitter computation panics (`rand.Int63n` with a non-positive bound). -/
theorem c9_amended_backoff_well_defined (d : Int) (k : Nat) (r : Nat)
    (hd : 1 ≤ d) (hbound : d * 1000000 * 2 ^ k < 2 ^ 63) :
    ∃ j, backoffDelay d k r = some (d * 1000000 * 2 ^ k + j)
      ∧ 0 ≤ j ∧ j < goQuot (d * 1000000 * 2 ^ k) 2 := by
  have hpow : (0 : Int) < 2 ^ k := by positivity
  have hd6 : (1000000 : Int) ≤ d * 1000000 := by nlinarith
  have hbase1 : (1000000 : Int) ≤ d * 1000000 * 2 ^ k := by nlinarith
  have h1 : wrap64 (d * 1000000) = d * 1000000 := by
    apply wrap64_eq_of_lt (by linarith)
    calc d * 1000000 ≤ d * 1000000 * 2 ^ k := by nlinarith
    _ < 2 ^ 63 := hbound
  have h2 : oneShl64 k = 2 ^ k := by
    unfold oneShl64
    apply wrap64_eq_of_lt (by positivity)
    calc (2 : Int) ^ k ≤ d * 1000000 * 2 ^ k := by nlinarith
    _ < 2 ^ 63 := hbound
  have h3 : goDelay d k = d * 1000000 * 2 ^ k := by
    unfold goDelay
    rw [h1, h2]
    exact wrap64_eq_of_lt (by linarith) hbound
  have hqpos : 0 < goQuot (d * 1000000 * 2 ^ k) 2 := goQuot_two_pos (by linarith)
  refine ⟨(r : Int) % goQuot (d * 1000000 * 2 ^ k) 2, ?_, ?_, ?_⟩
  · unfold backoffDelay int63n
    rw [h3, if_neg (not_le.mpr hqpos)]
  · exact Int.emod_nonneg _ (ne_of_gt hqpos)
  · exact Int.emod_lt_of_pos _ hqpos

/-- Witness for the amended C9 at the default base delay (1000 ms) and
attempt index 2. -/
theorem c9_witness :
    (1 ≤ (1000 : Int)) ∧ ((1000 : Int) * 1000000 * 2 ^ 2 < 2 ^ 63)
    ∧ ∃ j, backoffDelay 1000 2 77 = some (1000 * 1000000 * 2 ^ 2 + j)
        ∧ 0 ≤ j ∧ j < goQuot (1000 * 1000000 * 2 ^ 2) 2 :=
  ⟨by norm_num, by norm_num,
   c9_amended_backoff_well_defined 1000 2 77 (by norm_num) (by norm_num)⟩

/-! ## Retry-loop stepping lemmas -/

/-- Unfolding one retryable-5xx iteration of the loop: when the transport
returns a retryable status, the attempt is not the last, the backoff bound is
positive and the context stays quiet during the wait, the loop moves on to
the next attempt recording the server-status error. -/
theorem doWithRetryLoop_retry_step (client : Nat → Except GoError Response)
    (ctxDone : Nat → Bool) (ctxErr : GoError) (rand : Nat → Nat)
    (maxRetries retryDelay : Int) (f attempt : Nat) (lastErr : Option RErr)
    (lastResp : Bool) (st : Int) (b : RawBody)
    (hc : client attempt = Except.ok ⟨st, b⟩)
    (hr : isRetryableStatusCode st = true)
    (hne : (attempt : Int) ≠ maxRetries)
    (hpos : 0 < goQuot (goDelay retryDelay attempt) 2)
    (hq : ctxDone attempt = false) :
    doWithRetryLoop client ctxDone ctxErr rand maxRetries retryDelay (f + 1)
        attempt lastErr lastResp
      = doWithRetryLoop client ctxDone ctxErr rand maxRetries retryDelay f
        (attempt + 1) (some (RErr.serverStatus st)) true := by
  simp only [doWithRetryLoop, hc]
  rw [if_neg (by simp [hr, hne])]
  unfold int63n
  rw [if_neg (not_le.mpr hpos)]
  simp [hq]

/-- Skipping a block of `n` consecutive retryable-5xx iterations: the loop
from `attempt` with `fuel ≥ n` reaches `attempt + n` with `n` units of fuel
consumed (for some recorded last error/response state). -/
theorem doWithRetryLoop_skip (client : Nat → Except GoError Response)
    (ctxDone : Nat → Bool) (ctxErr : GoError) (rand : Nat → Nat)
    (maxRetries retryDelay : Int) (n : Nat) :
    ∀ (attempt fuel : Nat) (lastErr : Option RErr) (lastResp : Bool),
      n ≤ fuel →
      (∀ k, k < n →
        (∃ st b, client (attempt + k) = Except.ok ⟨st, b⟩
            ∧ isRetryableStatusCode st = true)
        ∧ ((attempt + k : Nat) : Int) ≠ maxRetries
        ∧ 0 < goQuot (goDelay retryDelay (attempt + k)) 2
        ∧ ctxDone (attempt + k) = false) →
      ∃ (lastErr' : Option RErr) (lastResp' : Bool),
        doWithRetryLoop client ctxDone ctxErr rand maxRetries retryDelay fuel
            attempt lastErr lastResp
          = doWithRetryLoop client ctxDone ctxErr rand maxRetries retryDelay
            (fuel - n) (attempt + n) lastErr' lastResp' := by
  induction n with
  | zero =>
    intro attempt fuel lastErr lastResp _ _
    exact ⟨lastErr, lastResp, by simp⟩
  | succ m ih =>
    intro attempt fuel lastErr lastResp hfuel h
    obtain ⟨f, rfl⟩ : ∃ f, fuel = f + 1 := ⟨fuel - 1, by omega⟩
    obtain ⟨⟨st, b, hc, hr⟩, hne, hpos, hq⟩ := h 0 (Nat.succ_pos m)
    rw [Nat.add_zero] at hc hne hpos hq
    have step := doWithRetryLoop_retry_step client ctxDone ctxErr rand maxRetries
      retryDelay f attempt lastErr lastResp st b hc hr hne hpos hq
    obtain ⟨lastErr', lastResp', heq⟩ := ih (attempt + 1) f
      (some (RErr.serverStatus st)) true (by omega)
      (fun k hk => by
        have hx := h (k + 1) (by omega)
        rw [show attempt + (k + 1) = attempt + 1 + k from by omega] at hx
        exact hx)
    refine ⟨lastErr', lastResp', ?_⟩
    rw [show f + 1 - (m + 1) = f - m from by omega,
        show attempt + (m + 1) = attempt + 1 + m from by omega]
    exact step.trans heq

/-! ## Operation-level core lemmas (shared by C1–C3, C5) -/

/-- Core of C1 at the shared operation tail: `N` retryable-5xx responses
followed by a 2xx response whose body decodes make the operation succeed
after exactly `N + 1` transport invocations. -/
theorem runOperation_5xx_then_success (decode : RawBody → Bool)
    (client : Nat → Except GoError Response) (ctxDone : Nat → Bool)
    (ctxErr : GoError) (rand : Nat → Nat) (cfg : Option Config)
    (s okStatus : Int) (N : Nat) (bodies : Nat → RawBody) (okBody : RawBody)
    (hs1 : 500 ≤ s) (hs2 : s ≤ 599)
    (hN : (N : Int) < effMaxRetries cfg)
    (hfail : ∀ k, k < N → client k = Except.ok ⟨s, bodies k⟩)
    (hok : client N = Except.ok ⟨okStatus, okBody⟩)
    (hok1 : 200 ≤ okStatus) (hok2 : okStatus < 300)
    (hdec : decode okBody = true)
    (hquiet : ∀ k, k < N → ctxDone k = false)
    (hdelay : ∀ k, k < N → 0 < goQuot (goDelay (effRetryDelay cfg) k) 2) :
    runOperation decode client ctxDone ctxErr rand cfg
      = (OpResult.success, N + 1) := by
  obtain ⟨lastErr', lastResp', heq⟩ := doWithRetryLoop_skip client ctxDone ctxErr
    rand (effMaxRetries cfg) (effRetryDelay cfg) N 0
    ((effMaxRetries cfg + 1).toNat) none false (by omega)
    (fun k hk => by
      refine ⟨⟨s, bodies k, by simpa using hfail k hk, ?_⟩, ?_, ?_, ?_⟩
      · exact isRetryableStatusCode_eq_true hs1 (by omega)
      · simp only [Nat.zero_add]
        omega
      · simpa using hdelay k hk
      · simpa using hquiet k hk)
  obtain ⟨f, hf⟩ : ∃ f, (effMaxRetries cfg + 1).toNat - N = f + 1 :=
    ⟨(effMaxRetries cfg + 1).toNat - N - 1, by omega⟩
  have hstep : doWithRetryLoop client ctxDone ctxErr rand (effMaxRetries cfg)
      (effRetryDelay cfg) (f + 1) N lastErr' lastResp'
      = (DoResult.ok ⟨okStatus, okBody⟩, N + 1) := by
    simp only [doWithRetryLoop, hok]
    rw [if_pos (Or.inl (isRetryableStatusCode_eq_false (Or.inl (by omega))))]
  have hdo : doWithRetry client ctxDone ctxErr rand cfg
      = (DoResult.ok ⟨okStatus, okBody⟩, N + 1) := by
    unfold doWithRetry
    rw [heq, Nat.zero_add, hf]
    exact hstep
  simp only [runOperation, hdo]
  rw [if_neg (by omega)]
  simp [hdec]

/-- Core of C2 at the shared operation tail: a first response with a
non-retryable 4xx status makes the operation return the parsed structured
error after exactly one transport invocation. -/
theorem runOperation_4xx_one_attempt (decode : RawBody → Bool)
    (client : Nat → Except GoError Response) (ctxDone : Nat → Bool)
    (ctxErr : GoError) (rand : Nat → Nat) (cfg : Option Config)
    (s : Int) (body : RawBody)
    (hmr : 0 ≤ effMaxRetries cfg) (hs1 : 400 ≤ s) (hs2 : s < 500)
    (hc : client 0 = Except.ok ⟨s, body⟩) :
    runOperation decode client ctxDone ctxErr rand cfg
      = (OpResult.apiError (parseRallyError s body), 1) := by
  obtain ⟨f, hf⟩ : ∃ f, (effMaxRetries cfg + 1).toNat = f + 1 :=
    ⟨(effMaxRetries cfg + 1).toNat - 1, by omega⟩
  have hstep : doWithRetryLoop client ctxDone ctxErr rand (effMaxRetries cfg)
      (effRetryDelay cfg) (f + 1) 0 none false
      = (DoResult.ok ⟨s, body⟩, 1) := by
    simp only [doWithRetryLoop, hc]
    rw [if_pos (Or.inl (isRetryableStatusCode_eq_false (Or.inl (by omega))))]
  have hdo : doWithRetry client ctxDone ctxErr rand cfg
      = (DoResult.ok ⟨s, body⟩, 1) := by
    unfold doWithRetry
    rw [hf]
    exact hstep
  simp only [runOperation, hdo]
  rw [if_pos (Or.inr (by omega))]

/-- Core of C3 at the shared operation tail: when every invocation returns a
retryable 5xx response and the effective max-retries is `R`, the operation
fails with the structured error parsed from the last (the `R`-th, 0-based)
response after exactly `R + 1` transport invocations. -/
theorem runOperation_persistent_5xx (decode : RawBody → Bool)
    (client : Nat → Except GoError Response) (ctxDone : Nat → Bool)
    (ctxErr : GoError) (rand : Nat → Nat) (cfg : Option Config)
    (R : Nat) (sOf : Nat → Int) (bOf : Nat → RawBody)
    (hR : effMaxRetries cfg = (R : Int))
    (hall : ∀ k, client k = Except.ok ⟨sOf k, bOf k⟩)
    (h5 : ∀ k, 500 ≤ sOf k ∧ sOf k ≤ 599)
    (hquiet : ∀ k, k < R → ctxDone k = false)
    (hdelay : ∀ k, k < R → 0 < goQuot (goDelay (effRetryDelay cfg) k) 2) :
    runOperation decode client ctxDone ctxErr rand cfg
      = (OpResult.apiError (parseRallyError (sOf R) (bOf R)), R + 1) := by
  obtain ⟨lastErr', lastResp', heq⟩ := doWithRetryLoop_skip client ctxDone ctxErr
    rand (effMaxRetries cfg) (effRetryDelay cfg) R 0
    ((effMaxRetries cfg + 1).toNat) none false (by omega)
    (fun k hk => by
      refine ⟨⟨sOf k, bOf k, by simpa using hall k, ?_⟩, ?_, ?_, ?_⟩
      · exact isRetryableStatusCode_eq_true (h5 k).1 (by have := (h5 k).2; omega)
      · simp only [Nat.zero_add]
        omega
      · simpa using hdelay k hk
      · simpa using hquiet k hk)
  have hf : (effMaxRetries cfg + 1).toNat - R = 1 := by omega
  have hstep : doWithRetryLoop client ctxDone ctxErr rand (effMaxRetries cfg)
      (effRetryDelay cfg) 1 R lastErr' lastResp'
      = (DoResult.ok ⟨sOf R, bOf R⟩, R + 1) := by
    simp only [doWithRetryLoop, hall R]
    rw [if_pos (Or.inr hR.symm)]
  have hdo : doWithRetry client ctxDone ctxErr rand cfg
      = (DoResult.ok ⟨sOf R, bOf R⟩, R + 1) := by
    unfold doWithRetry
    rw [heq, Nat.zero_add, hf]
    exact hstep
  simp only [runOperation, hdo]
  rw [if_pos (Or.inr (by have := (h5 R).1; omega))]

/-! ## Claim C1 -/

/-- Claim C1: for every status `s` in [500,599] and every `N` strictly less
than the effective max-retries, if the transport returns status `s` on each
of the first `N` invocations and then a 2xx response whose body decodes into
the caller-supplied output shape, any of the five CRUD operations succeeds
and the transport is invoked exactly `N + 1` times. (Side conditions: the
caller's context does not fire during the backoff waits, and each backoff
half-delay is positive — otherwise the jitter draw panics, see C9.) -/
theorem c1_5xx_then_succeeds (op : CrudOp)
    (hop : op = QueryRequest ∨ op = GetRequest ∨ op = CreateRequest
      ∨ op = UpdateRequest ∨ op = DeleteRequest)
    (decode : RawBody → Bool) (client : Nat → Except GoError Response)
    (ctxDone : Nat → Bool) (ctxErr : GoError) (rand : Nat → Nat)
    (cfg : Option Config) (s okStatus : Int) (N : Nat)
    (bodies : Nat → RawBody) (okBody : RawBody)
    (hs1 : 500 ≤ s) (hs2 : s ≤ 599)
    (hN : (N : Int) < effMaxRetries cfg)
    (hfail : ∀ k, k < N → client k = Except.ok ⟨s, bodies k⟩)
    (hok : client N = Except.ok ⟨okStatus, okBody⟩)
    (hok1 : 200 ≤ okStatus) (hok2 : okStatus < 300)
    (hdec : decode okBody = true)
    (hquiet : ∀ k, k < N → ctxDone k = false)
    (hdelay : ∀ k, k < N → 0 < goQuot (goDelay (effRetryDelay cfg) k) 2) :
    op decode client ctxDone ctxErr rand cfg = (OpResult.success, N + 1) := by
  have hcore := runOperation_5xx_then_success decode client ctxDone ctxErr rand
    cfg s okStatus N bodies okBody hs1 hs2 hN hfail hok hok1 hok2 hdec hquiet hdelay
  rcases hop with rfl | rfl | rfl | rfl | rfl <;> exact hcore

/-- Witness for C1: `QueryRequest` against a transport scripted to return 500
twice and then 200 with a decodable body, under the default configuration
(max retries 3): success after exactly 3 invocations. -/
theorem c1_witness :
    (((2 : Nat) : Int) < effMaxRetries none)
    ∧ QueryRequest (fun b => b.text == "ok")
        (fun n => if n < 2 then Except.ok ⟨500, ⟨"boom", none⟩⟩
          else Except.ok ⟨200, ⟨"ok", none⟩⟩)
        (fun _ => false) GoError.canceled (fun _ => 0) none
      = (OpResult.success, 3) := by
  refine ⟨by decide, ?_⟩
  exact c1_5xx_then_succeeds QueryRequest (Or.inl rfl)
    (fun b => b.text == "ok")
    (fun n => if n < 2 then Except.ok ⟨500, ⟨"boom", none⟩⟩
      else Except.ok ⟨200, ⟨"ok", none⟩⟩)
    (fun _ => false) GoError.canceled (fun _ => 0) none
    500 200 2 (fun _ => ⟨"boom", none⟩) ⟨"ok", none⟩
    (by norm_num) (by norm_num) (by decide)
    (by intro k hk; interval_cases k <;> rfl)
    rfl (by norm_num) (by norm_num) (by decide)
    (fun _ _ => rfl)
    (by intro k hk; interval_cases k <;> decide)

/-! ## Claim C2 -/

/-- Claim C2: for every status `s` in [400,499], if the transport's first
response has status `s`, any of the five CRUD operations fails with the
structured service error for status `s` after exactly one transport
invocation — a 4xx response is never retried. -/
theorem c2_4xx_fails_after_one_invocation (op : CrudOp)
    (hop : op = QueryRequest ∨ op = GetRequest ∨ op = CreateRequest
      ∨ op = UpdateRequest ∨ op = DeleteRequest)
    (decode : RawBody → Bool) (client : Nat → Except GoError Response)
    (ctxDone : Nat → Bool) (ctxErr : GoError) (rand : Nat → Nat)
    (cfg : Option Config) (s : Int) (body : RawBody)
    (hmr : 0 ≤ effMaxRetries cfg) (hs1 : 400 ≤ s) (hs2 : s < 500)
    (hc : client 0 = Except.ok ⟨s, body⟩) :
    op decode client ctxDone ctxErr rand cfg
        = (OpResult.apiError (parseRallyError s body), 1)
      ∧ (parseRallyError s body).StatusCode = s := by
  have hcore := runOperation_4xx_one_attempt decode client ctxDone ctxErr rand
    cfg s body hmr hs1 hs2 hc
  refine ⟨?_, parseRallyError_statusCode s body⟩
  rcases hop with rfl | rfl | rfl | rfl | rfl <;> exact hcore

/-- Witness for C2: `GetRequest` against a transport answering 404 at once,
default configuration: the structured 404 error after exactly one
invocation. -/
theorem c2_witness :
    (0 ≤ effMaxRetries none)
    ∧ GetRequest (fun _ => true) (fun _ => Except.ok ⟨404, ⟨"not found", none⟩⟩)
        (fun _ => false) GoError.canceled (fun _ => 0) none
      = (OpResult.apiError (parseRallyError 404 ⟨"not found", none⟩), 1)
    ∧ (parseRallyError 404 ⟨"not found", none⟩).StatusCode = 404 := by
  refine ⟨by decide, ?_, ?_⟩
  · exact (c2_4xx_fails_after_one_invocation GetRequest (Or.inr (Or.inl rfl))
      (fun _ => true) (fun _ => Except.ok ⟨404, ⟨"not found", none⟩⟩)
      (fun _ => false) GoError.canceled (fun _ => 0) none
      404 ⟨"not found", none⟩ (by decide) (by norm_num) (by norm_num) rfl).1
  · exact (c2_4xx_fails_after_one_invocation GetRequest (Or.inr (Or.inl rfl))
      (fun _ => true) (fun _ => Except.ok ⟨404, ⟨"not found", none⟩⟩)
      (fun _ => false) GoError.canceled (fun _ => 0) none
      404 ⟨"not found", none⟩ (by decide) (by norm_num) (by norm_num) rfl).2

/-! ## Claim C3 -/

/-- Claim C3: if the effective max-retries is `R` (in particular `R = 3` when
no configuration is set, witnessed below) and the transport returns a 5xx
response on every invocation, any of the five CRUD operations fails after
exactly `R + 1` transport invocations; `R = 0` gives exactly one attempt.
(Same backoff side conditions as C1.) -/
theorem c3_persistent_5xx_exhausts (op : CrudOp)
    (hop : op = QueryRequest ∨ op = GetRequest ∨ op = CreateRequest
      ∨ op = UpdateRequest ∨ op = DeleteRequest)
    (decode : RawBody → Bool) (client : Nat → Except GoError Response)
    (ctxDone : Nat → Bool) (ctxErr : GoError) (rand : Nat → Nat)
    (cfg : Option Config) (R : Nat) (sOf : Nat → Int) (bOf : Nat → RawBody)
    (hR : effMaxRetries cfg = (R : Int))
    (hall : ∀ k, client k = Except.ok ⟨sOf k, bOf k⟩)
    (h5 : ∀ k, 500 ≤ sOf k ∧ sOf k ≤ 599)
    (hquiet : ∀ k, k < R → ctxDone k = false)
    (hdelay : ∀ k, k < R → 0 < goQuot (goDelay (effRetryDelay cfg) k) 2) :
    op decode client ctxDone ctxErr rand cfg
      = (OpResult.apiError (parseRallyError (sOf R) (bOf R)), R + 1) := by
  have hcore := runOperation_persistent_5xx decode client ctxDone ctxErr rand
    cfg R sOf bOf hR hall h5 hquiet hdelay
  rcases hop with rfl | rfl | rfl | rfl | rfl <;> exact hcore

/-- Witness for C3: `CreateRequest` against a transport that always answers
503, with no configuration set (so `R = 3`): failure after exactly 4
invocations. -/
theorem c3_witness :
    (effMaxRetries none = ((3 : Nat) : Int))
    ∧ CreateRequest (fun _ => true) (fun _ => Except.ok ⟨503, ⟨"unavailable", none⟩⟩)
        (fun _ => false) GoError.canceled (fun _ => 0) none
      = (OpResult.apiError (parseRallyError 503 ⟨"unavailable", none⟩), 4) := by
  refine ⟨by decide, ?_⟩
  exact c3_persistent_5xx_exhausts CreateRequest (Or.inr (Or.inr (Or.inl rfl)))
    (fun _ => true) (fun _ => Except.ok ⟨503, ⟨"unavailable", none⟩⟩)
    (fun _ => false) GoError.canceled (fun _ => 0) none
    3 (fun _ => 503) (fun _ => ⟨"unavailable", none⟩)
    (by decide) (fun _ => rfl) (fun _ => by norm_num)
    (fun _ _ => rfl)
    (by intro k hk; interval_cases k <;> decide)

/-! ## Claim C4 -/

/-- Counterexample to C4 as stated: when the context fires during the first
backoff wait (after one attempt that saw a retryable 500 response), the
engine returns a failure annotated with `0` that wraps the context's own
error `context.Canceled` — not, as the claim states, a failure annotated
with the number of attempts already made (1) wrapping the most recent
attempt's error (`server returned status 500`). -/
theorem c4_counterexample :
    doWithRetry (fun _ => Except.ok ⟨500, ⟨"err", none⟩⟩) (fun _ => true)
        GoError.canceled (fun _ => 0) none
      = (DoResult.err (RErr.ctxCancelled 0 (RErr.goErr GoError.canceled)), 1)
    ∧ RErr.ctxCancelled 0 (RErr.goErr GoError.canceled)
      ≠ RErr.ctxCancelled 1 (RErr.serverStatus 500) :=
  ⟨rfl, by decide⟩

/-- Claim C4, amended: whenever the cancellation/deadline signal fires during
the backoff wait that follows attempt `k` (0-based), the retry engine aborts
immediately — exactly `k + 1` transport invocations — and returns a
cancellation failure that wraps the context's cancellation error (not the
most recent attempt's error), annotated with `k`, i.e. one less than the
number of attempts already made. -/
theorem c4_amended_cancellation_during_backoff
    (client : Nat → Except GoError Response) (ctxDone : Nat → Bool)
    (ctxErr : GoError) (rand : Nat → Nat) (cfg : Option Config)
    (k : Nat) (sOf : Nat → Int) (bOf : Nat → RawBody)
    (hk : (k : Int) < effMaxRetries cfg)
    (hresp : ∀ i, i ≤ k → client i = Except.ok ⟨sOf i, bOf i⟩)
    (h5 : ∀ i, i ≤ k → 500 ≤ sOf i ∧ sOf i ≤ 599)
    (hquiet : ∀ i, i < k → ctxDone i = false)
    (hdelay : ∀ i, i ≤ k → 0 < goQuot (goDelay (effRetryDelay cfg) i) 2)
    (hfire : ctxDone k = true) :
    doWithRetry client ctxDone ctxErr rand cfg
      = (DoResult.err (RErr.ctxCancelled k (RErr.goErr ctxErr)), k + 1) := by
  obtain ⟨lastErr', lastResp', heq⟩ := doWithRetryLoop_skip client ctxDone ctxErr
    rand (effMaxRetries cfg) (effRetryDelay cfg) k 0
    ((effMaxRetries cfg + 1).toNat) none false (by omega)
    (fun i hi => by
      refine ⟨⟨sOf i, bOf i, by simpa using hresp i (le_of_lt hi), ?_⟩, ?_, ?_, ?_⟩
      · exact isRetryableStatusCode_eq_true (h5 i (le_of_lt hi)).1
          (by have := (h5 i (le_of_lt hi)).2; omega)
      · simp only [Nat.zero_add]
        omega
      · simpa using hdelay i (le_of_lt hi)
      · simpa using hquiet i hi)
  obtain ⟨f, hf⟩ : ∃ f, (effMaxRetries cfg + 1).toNat - k = f + 1 :=
    ⟨(effMaxRetries cfg + 1).toNat - k - 1, by omega⟩
  have hrt : isRetryableStatusCode (sOf k) = true :=
    isRetryableStatusCode_eq_true (h5 k le_rfl).1 (by have := (h5 k le_rfl).2; omega)
  have hstep : doWithRetryLoop client ctxDone ctxErr rand (effMaxRetries cfg)
      (effRetryDelay cfg) (f + 1) k lastErr' lastResp'
      = (DoResult.err (RErr.ctxCancelled k (RErr.goErr ctxErr)), k + 1) := by
    simp only [doWithRetryLoop, hresp k le_rfl]
    rw [if_neg (by simp only [hrt, not_or]; exact ⟨by simp, by omega⟩)]
    unfold int63n
    rw [if_neg (not_le.mpr (hdelay k le_rfl))]
    simp [hfire]
  unfold doWithRetry
  rw [heq, Nat.zero_add, hf]
  exact hstep

/-- Witness for the amended C4: the second attempt (k = 1) sees a retryable
502 and the deadline fires during the following wait: the engine stops after
2 invocations with the wrap of `context.DeadlineExceeded` annotated 1. -/
theorem c4_witness :
    (((1 : Nat) : Int) < effMaxRetries none)
    ∧ ((fun n : Nat => n == 1) 1 = true)
    ∧ doWithRetry (fun _ => Except.ok ⟨502, ⟨"bad gateway", none⟩⟩)
        (fun n => n == 1) GoError.deadlineExceeded (fun _ => 0) none
      = (DoResult.err (RErr.ctxCancelled 1 (RErr.goErr GoError.deadlineExceeded)), 2) := by
  refine ⟨by decide, by decide, ?_⟩
  exact c4_amended_cancellation_during_backoff
    (fun _ => Except.ok ⟨502, ⟨"bad gateway", none⟩⟩) (fun n => n == 1)
    GoError.deadlineExceeded (fun _ => 0) none 1
    (fun _ => 502) (fun _ => ⟨"bad gateway", none⟩)
    (by decide) (fun _ _ => rfl) (fun _ _ => by norm_num)
    (by intro i hi; interval_cases i; rfl)
    (by intro i hi; interval_cases i <;> decide)
    rfl

/-! ## Claim C5 -/

/-- Counterexample to C5 as stated: the code never consults the context
before (or after) a transport exchange — only during backoff waits — so with
an already-cancelled context and a transport that ignores the context and
returns a decodable 200 response, `QueryRequest` succeeds (performing a
successful decode) instead of failing. -/
theorem c5_counterexample :
    QueryRequest (fun b => b.text == "ok") (fun _ => Except.ok ⟨200, ⟨"ok", none⟩⟩)
        (fun _ => true) GoError.canceled (fun _ => 0) none
      = (OpResult.success, 1) := rfl

/-- Core of the amended C5 at the shared operation tail. -/
theorem runOperation_cancelled_honoring (decode : RawBody → Bool)
    (client : Nat → Except GoError Response) (ctxDone : Nat → Bool)
    (rand : Nat → Nat) (cfg : Option Config)
    (hmr : 0 ≤ effMaxRetries cfg)
    (hc : client 0 = Except.error GoError.canceled) :
    runOperation decode client ctxDone GoError.canceled rand cfg
      = (OpResult.execFailure (RErr.goErr GoError.canceled), 1) := by
  obtain ⟨f, hf⟩ : ∃ f, (effMaxRetries cfg + 1).toNat = f + 1 :=
    ⟨(effMaxRetries cfg + 1).toNat - 1, by omega⟩
  have hstep : doWithRetryLoop client ctxDone GoError.canceled rand
      (effMaxRetries cfg) (effRetryDelay cfg) (f + 1) 0 none false
      = (DoResult.err (RErr.goErr GoError.canceled), 1) := by
    simp only [doWithRetryLoop, hc]
    rw [if_pos (Or.inl (by decide))]
  have hdo : doWithRetry client ctxDone GoError.canceled rand cfg
      = (DoResult.err (RErr.goErr GoError.canceled), 1) := by
    unfold doWithRetry
    rw [hf]
    exact hstep
  simp only [runOperation, hdo]

/-- Claim C5, amended: an operation invoked with an already-cancelled context
fails immediately — after exactly one transport invocation, with no
successful decode — provided the transport honors cancellation, i.e. returns
the context's error `context.Canceled` (which the engine classifies as
non-retryable). Without that proviso the claim is false, see the
counterexample. -/
theorem c5_amended_cancelled_context (op : CrudOp)
    (hop : op = QueryRequest ∨ op = GetRequest ∨ op = CreateRequest
      ∨ op = UpdateRequest ∨ op = DeleteRequest)
    (decode : RawBody → Bool) (client : Nat → Except GoError Response)
    (ctxDone : Nat → Bool) (rand : Nat → Nat) (cfg : Option Config)
    (hmr : 0 ≤ effMaxRetries cfg)
    (hc : client 0 = Except.error GoError.canceled) :
    op decode client ctxDone GoError.canceled rand cfg
      = (OpResult.execFailure (RErr.goErr GoError.canceled), 1) := by
  have hcore := runOperation_cancelled_honoring decode client ctxDone rand cfg hmr hc
  rcases hop with rfl | rfl | rfl | rfl | rfl <;> exact hcore

/-- Witness for the amended C5: `DeleteRequest` with an already-cancelled
context and a context-honoring transport fails at once. -/
theorem c5_witness :
    (0 ≤ effMaxRetries none)
    ∧ DeleteRequest (fun _ => true) (fun _ => Except.error GoError.canceled)
        (fun _ => true) GoError.canceled (fun _ => 0) none
      = (OpResult.execFailure (RErr.goErr GoError.canceled), 1) := by
  refine ⟨by decide, ?_⟩
  exact c5_amended_cancelled_context DeleteRequest
    (Or.inr (Or.inr (Or.inr (Or.inr rfl))))
    (fun _ => true) (fun _ => Except.error GoError.canceled) (fun _ => true)
    (fun _ => 0) none (by decide) rfl

end RallyToolkit
